import Mathlib

/-!
Verification of the Ecodrive emission-estimation backend (`main.py`,
`schemas.py`).

Shallow embedding conventions:
* Python floats are modelled as exact rationals (`ℚ`); all constants in the
  source are short decimals, exactly representable in `ℚ`.
* Python `round(x, n)` (round-half-to-even on the scaled value) is modelled by
  `pyRound`.
* `datetime` timestamps are modelled as epoch seconds (`ℤ`, UTC); the UTC
  calendar date used as a `by_day` key (`strftime "%Y-%m-%d"`) is modelled by
  its day number `dateOf t = ⌊t / 86400⌋`, which determines the date string
  bijectively.
* `HTTPException(status_code, detail)` is modelled by `HTTPError`; fallible
  functions return `Except HTTPError _`.
* The Mongo document store is modelled as a list of `Reading` records; storage
  failure is a boolean flag, since the source swallows any exception of a
  storage call.
-/

namespace Ecodrive

/-- Rounding half to even after scaling by `10^n`: the behaviour of Python's
built-in `round(x, n)` on the exact value of its argument. -/
def pyRound (n : ℕ) (x : ℚ) : ℚ :=
  let scaled : ℚ := x * (10 : ℚ) ^ n
  let f : ℤ := ⌊scaled⌋
  let frac : ℚ := scaled - (f : ℚ)
  let r : ℤ :=
    if frac < 1/2 then f
    else if 1/2 < frac then f + 1
    else if f % 2 = 0 then f else f + 1
  (r : ℚ) / (10 : ℚ) ^ n

instance {ε α : Type} [DecidableEq ε] [DecidableEq α] :
    DecidableEq (Except ε α) := fun x y =>
  match x, y with
  | .error a, .error b =>
    if h : a = b then .isTrue (by rw [h]) else .isFalse (by simp [h])
  | .error _, .ok _ => .isFalse (by simp)
  | .ok _, .error _ => .isFalse (by simp)
  | .ok a, .ok b =>
    if h : a = b then .isTrue (by rw [h]) else .isFalse (by simp [h])

/-- Model of `fastapi.HTTPException`: a status code and a detail string. -/
structure HTTPError where
  status : ℕ
  detail : String
  deriving DecidableEq, Repr

/-- The emission-factor record returned by `emission_factors`. -/
structure Factors where
  co2_kg_per_l : ℚ
  co_base_g_per_km : ℚ
  deriving DecidableEq, Repr

/-- Python's `str.lower()`: lowercase each character (character-wise map, as
`String.toLower` does, but stated on the character list so it evaluates in the
kernel). -/
def pyLower (s : String) : String :=
  ⟨s.data.map Char.toLower⟩

/-- `emission_factors` from `main.py`: lowercases the fuel type, rejects
anything but petrol/diesel with a 400, and returns the fixed factors. -/
def emission_factors (fuel_type : String) : Except HTTPError Factors :=
  let ft := pyLower fuel_type
  if ft ≠ "petrol" ∧ ft ≠ "diesel" then
    .error ⟨400, "fuel_type must be 'petrol' or 'diesel'"⟩
  else if ft = "petrol" then
    .ok ⟨231/100, 6/5⟩
  else
    .ok ⟨67/25, 4/5⟩

/-- The metrics dict returned by `estimate_emissions`. -/
structure Metrics where
  co_g : ℚ
  co2_kg : ℚ
  co2_g_per_km : ℚ
  deriving DecidableEq, Repr

/-- `estimate_emissions` from `main.py`. Python truthiness is kept:
`efficiency_km_per_l and efficiency_km_per_l > 0` is `e ≠ 0 ∧ 0 < e`, and
`avg_speed_kmh or 40.0` maps `none` and `some 0` to `40`. -/
def estimate_emissions (distance_km : ℚ) (fuel_type : String)
    (fuel_used_l : Option ℚ) (efficiency_km_per_l : Option ℚ)
    (avg_speed_kmh : Option ℚ) : Except HTTPError Metrics :=
  if distance_km < 0 then
    .error ⟨400, "distance_km must be >= 0"⟩
  else
    match emission_factors fuel_type with
    | .error e => .error e
    | .ok factors =>
      let fuelRes : Except HTTPError ℚ :=
        match fuel_used_l with
        | some f => .ok f
        | none =>
          match efficiency_km_per_l with
          | some e =>
            if e ≠ 0 ∧ 0 < e then .ok (distance_km / e)
            else .error ⟨400, "Provide fuel_used_l or efficiency_km_per_l > 0"⟩
          | none => .error ⟨400, "Provide fuel_used_l or efficiency_km_per_l > 0"⟩
      match fuelRes with
      | .error e => .error e
      | .ok fuel_used =>
        let co2_kg : ℚ := fuel_used * factors.co2_kg_per_l
        let co2_g_per_km : ℚ :=
          if 0 < distance_km then (co2_kg * 1000) / distance_km else 0
        let speed : ℚ :=
          match avg_speed_kmh with
          | some s => if s = 0 then 40 else s
          | none => 40
        let speed_factor : ℚ := (1/50) * |speed - 50|
        let co_g_per_km : ℚ := max (1/5) (factors.co_base_g_per_km + speed_factor)
        let co_g_total : ℚ := co_g_per_km * distance_km
        .ok ⟨pyRound 2 co_g_total, pyRound 3 co2_kg, pyRound 1 co2_g_per_km⟩

/-- `check_thresholds` from `main.py`: the reasons list built by the two
appends, then `alert = reasons ≠ []` and the `", "`-joined reason string. -/
def check_thresholds (co_g : ℚ) (co2_g_per_km : ℚ) : Bool × Option String :=
  let reasons : List String :=
    (if co2_g_per_km > 180 then ["High CO2 intensity"] else []) ++
    (if co_g > 20 then ["High CO emission"] else [])
  (decide (reasons.length > 0),
   if reasons.isEmpty then none else some (String.intercalate ", " reasons))

/-- The request body of `POST /api/estimate` (`EstimateRequest` in `main.py`).
`fuel_type` is kept as a string; the pydantic `Literal`/`Field` bounds are the
separate predicate `validRequest`. -/
structure EstimateRequest where
  vehicle_id : String
  distance_km : ℚ
  fuel_used_l : Option ℚ
  efficiency_km_per_l : Option ℚ
  fuel_type : String
  avg_speed_kmh : Option ℚ
  deriving DecidableEq, Repr

/-- The pydantic validation of `EstimateRequest`: `distance_km ≥ 0`,
`fuel_used_l ≥ 0` when present, `efficiency_km_per_l > 0` when present,
`fuel_type ∈ {petrol, diesel}`, `avg_speed_kmh ≥ 0` when present. -/
def validRequest (r : EstimateRequest) : Prop :=
  0 ≤ r.distance_km ∧
  (∀ f ∈ r.fuel_used_l, 0 ≤ f) ∧
  (∀ e ∈ r.efficiency_km_per_l, 0 < e) ∧
  (r.fuel_type = "petrol" ∨ r.fuel_type = "diesel") ∧
  (∀ s ∈ r.avg_speed_kmh, 0 ≤ s)

/-- The response body of `POST /api/estimate` (`EstimateResponse`). -/
structure EstimateResponse where
  co_g : ℚ
  co2_kg : ℚ
  co2_g_per_km : ℚ
  alert : Bool
  reason : Option String
  deriving DecidableEq, Repr

/-- A persisted `emissionreading` document, restricted to the fields the
weekly aggregation reads back (`created_at`, `vehicle_id`, `co_g`, `co2_kg`,
`alert`). `created_at` is the timestamp (epoch seconds, UTC) assigned at
persistence time; `database.py` is not part of the sources, so this field is
modelled from the spec, which makes it an implicit timestamp assigned by the
store on insert. -/
structure Reading where
  vehicle_id : String
  created_at : ℤ
  co_g : ℚ
  co2_kg : ℚ
  alert : Bool
  deriving DecidableEq, Repr

/-- The `POST /api/estimate` handler `estimate` from `main.py`. The document
store is the list `store`; `insertFails` says whether `create_document`
raises. The source wraps the insert in `try/except: pass`, so a failed insert
leaves the store unchanged and the computed response is returned either way. -/
def estimate (insertFails : Bool) (store : List Reading) (now : ℤ)
    (r : EstimateRequest) : Except HTTPError (EstimateResponse × List Reading) :=
  match estimate_emissions r.distance_km r.fuel_type r.fuel_used_l
      r.efficiency_km_per_l r.avg_speed_kmh with
  | .error e => .error e
  | .ok m =>
    let res := check_thresholds m.co_g m.co2_g_per_km
    let doc : Reading :=
      ⟨r.vehicle_id, now, m.co_g, m.co2_kg, res.1⟩
    let store' := if insertFails then store else store ++ [doc]
    .ok (⟨m.co_g, m.co2_kg, m.co2_g_per_km, res.1, res.2⟩, store')

/-- The UTC calendar date of an epoch-seconds timestamp, as a day number:
the model of `ts.astimezone(timezone.utc).strftime("%Y-%m-%d")`, which is a
bijective renaming of this day number. -/
def dateOf (t : ℤ) : ℤ :=
  Int.fdiv t 86400

/-- One value of the `by_day` dict in `weekly_analysis`. -/
structure Bucket where
  trips : ℕ
  co_g : ℚ
  co2_kg : ℚ
  alerts : ℕ
  deriving DecidableEq, Repr

/-- The bucket `setdefault` inserts: `{"trips": 0, "co_g": 0.0, "co2_kg": 0.0,
"alerts": 0}`. -/
def zeroBucket : Bucket :=
  ⟨0, 0, 0, 0⟩

/-- The body of the bucketing loop: increment `trips`, add `co_g` and
`co2_kg`, count `alerts`. -/
def addReading (b : Bucket) (r : Reading) : Bucket :=
  ⟨b.trips + 1, b.co_g + r.co_g, b.co2_kg + r.co2_kg,
   b.alerts + if r.alert then 1 else 0⟩

/-- Dictionary lookup on the `by_day` association list. -/
def lookupB (day : ℤ) : List (ℤ × Bucket) → Option Bucket
  | [] => none
  | (k, b) :: rest => if k = day then some b else lookupB day rest

/-- `by_day.setdefault(day_key, zero)` followed by the in-place accumulation
for one reading. -/
def updateB (day : ℤ) (r : Reading) : List (ℤ × Bucket) → List (ℤ × Bucket)
  | [] => [(day, addReading zeroBucket r)]
  | (k, b) :: rest =>
    if k = day then (k, addReading b r) :: rest
    else (k, b) :: updateB day r rest

/-- The `for d in readings` bucketing loop of `weekly_analysis`. -/
def buildByDay (readings : List Reading) : List (ℤ × Bucket) :=
  readings.foldl (fun m r => updateB (dateOf r.created_at) r m) []

/-- One element of the emitted `day_series`. -/
structure DayEntry where
  day : ℤ
  trips : ℕ
  co_g : ℚ
  co2_kg : ℚ
  alerts : ℕ
  deriving DecidableEq, Repr

/-- One `day_series` element: `by_day.get(day, {}).get(field, 0)` with the
final rounding of `co_g` (2 decimals) and `co2_kg` (3 decimals). -/
def emitDay (m : List (ℤ × Bucket)) (day : ℤ) : DayEntry :=
  let b := (lookupB day m).getD zeroBucket
  ⟨day, b.trips, pyRound 2 b.co_g, pyRound 3 b.co2_kg, b.alerts⟩

/-- The `summary` object of the weekly analysis response. -/
structure Summary where
  total_trips : ℕ
  total_co_g : ℚ
  total_co2_kg : ℚ
  avg_co_g : ℚ
  avg_co2_kg : ℚ
  alerts : ℕ
  deriving DecidableEq, Repr

/-- The full weekly analysis response. -/
structure WeeklyReport where
  summary : Summary
  by_day : List DayEntry
  deriving DecidableEq, Repr

/-- The `if vehicle_id:` guard of `weekly_analysis`: the `vehicle_id` clause
is added to the Mongo filter only when the query parameter is truthy (present
and non-empty). -/
def matchesVehicle (v : Option String) (r : Reading) : Bool :=
  match v with
  | none => true
  | some s => if s = "" then true else r.vehicle_id == s

/-- The store query of `weekly_analysis`: `created_at >= seven_days_ago`
plus the optional `vehicle_id` clause; a failing query is swallowed and
treated as an empty result list. -/
def queryReadings (queryFails : Bool) (store : List Reading) (now : ℤ)
    (v : Option String) : List Reading :=
  if queryFails then []
  else store.filter fun r =>
    decide (now - 7 * 86400 ≤ r.created_at) && matchesVehicle v r

/-- The `GET /api/weekly-analysis` handler `weekly_analysis` from `main.py`,
over the queried readings: summary totals/averages/alert count, then the
7-day `day_series` emitted from the `by_day` buckets. -/
def weekly_analysis (queryFails : Bool) (store : List Reading) (now : ℤ)
    (v : Option String) : WeeklyReport :=
  let seven_days_ago : ℤ := now - 7 * 86400
  let readings := queryReadings queryFails store now v
  let total_trips := readings.length
  let sum_co_g := (readings.map (·.co_g)).sum
  let sum_co2_kg := (readings.map (·.co2_kg)).sum
  let alerts := readings.countP (·.alert)
  let avg_co_g : ℚ :=
    if total_trips ≠ 0 then pyRound 2 (sum_co_g / total_trips) else 0
  let avg_co2_kg : ℚ :=
    if total_trips ≠ 0 then pyRound 3 (sum_co2_kg / total_trips) else 0
  let m := buildByDay readings
  let days := (List.range 7).map fun (i : ℕ) =>
    dateOf (seven_days_ago + (i : ℤ) * 86400)
  { summary :=
      ⟨total_trips, pyRound 2 sum_co_g, pyRound 3 sum_co2_kg,
       avg_co_g, avg_co2_kg, alerts⟩,
    by_day := days.map (emitDay m) }

/-- The contents the spec ascribes to one emitted day bucket: the readings of
the queried result set whose UTC date is `day`, counted and summed (with the
emission rounding), zero-filled when no reading matches. Used to state the
`by_day` claims; proved equal to what `weekly_analysis` emits. -/
def dayBucketSpec (qs : List Reading) (day : ℤ) : DayEntry :=
  let ds := qs.filter fun r => decide (dateOf r.created_at = day)
  ⟨day, ds.length, pyRound 2 ((ds.map (·.co_g)).sum),
   pyRound 3 ((ds.map (·.co2_kg)).sum), ds.countP (·.alert)⟩

/-! ## Helper lemmas -/

lemma pyLower_petrol : pyLower "petrol" = "petrol" := by decide

lemma pyLower_diesel : pyLower "diesel" = "diesel" := by decide

lemma emission_factors_petrol : emission_factors "petrol" = .ok ⟨231/100, 6/5⟩ := by
  simp [emission_factors, pyLower_petrol]

lemma emission_factors_diesel : emission_factors "diesel" = .ok ⟨67/25, 4/5⟩ := by
  simp [emission_factors, pyLower_diesel]

lemma pyRound_zero (n : ℕ) : pyRound n 0 = 0 := by
  norm_num [pyRound]

lemma interc_two :
    String.intercalate ", " ["High CO2 intensity", "High CO emission"] =
      "High CO2 intensity, High CO emission" := by decide

lemma interc_co2 :
    String.intercalate ", " ["High CO2 intensity"] = "High CO2 intensity" := by
  decide

lemma interc_co :
    String.intercalate ", " ["High CO emission"] = "High CO emission" := by
  decide

lemma lookupB_updateB (day k : ℤ) (r : Reading) (m : List (ℤ × Bucket)) :
    lookupB day (updateB k r m) =
      if k = day then some (addReading ((lookupB day m).getD zeroBucket) r)
      else lookupB day m := by
  induction m with
  | nil =>
    by_cases h : k = day <;> simp [updateB, lookupB, h]
  | cons p rest ih =>
    obtain ⟨k', b⟩ := p
    by_cases h1 : k' = day <;> by_cases h2 : k' = k <;>
      by_cases h3 : k = day <;>
      simp_all [updateB, lookupB]

lemma lookupB_foldl (rs : List Reading) (m : List (ℤ × Bucket)) (day : ℤ) :
    (lookupB day
        (rs.foldl (fun acc r => updateB (dateOf r.created_at) r acc) m)).getD
        zeroBucket =
      (rs.filter fun r => decide (dateOf r.created_at = day)).foldl addReading
        ((lookupB day m).getD zeroBucket) := by
  induction rs generalizing m with
  | nil => rfl
  | cons r rs ih =>
    rw [List.foldl_cons, ih]
    by_cases h : dateOf r.created_at = day <;>
      simp [List.filter_cons, h, lookupB_updateB]

lemma foldl_addReading (rs : List Reading) (b : Bucket) :
    rs.foldl addReading b =
      ⟨b.trips + rs.length, b.co_g + (rs.map (·.co_g)).sum,
       b.co2_kg + (rs.map (·.co2_kg)).sum,
       b.alerts + rs.countP (·.alert)⟩ := by
  induction rs generalizing b with
  | nil => simp
  | cons r rs ih =>
    rw [List.foldl_cons, ih]
    simp only [addReading, List.length_cons, List.map_cons, List.sum_cons,
      List.countP_cons, Bucket.mk.injEq]
    refine ⟨by omega, by ring, by ring, ?_⟩
    by_cases hr : r.alert <;> simp [hr] <;> omega

lemma dateOf_add_days (t : ℤ) (i : ℕ) :
    dateOf (t + i * 86400) = dateOf t + i := by
  unfold dateOf
  rw [Int.fdiv_eq_ediv _ (by norm_num), Int.fdiv_eq_ediv _ (by norm_num),
    Int.add_mul_ediv_right _ _ (by norm_num)]

lemma emitDay_buildByDay (qs : List Reading) (day : ℤ) :
    emitDay (buildByDay qs) day = dayBucketSpec qs day := by
  unfold emitDay dayBucketSpec buildByDay
  rw [lookupB_foldl]
  simp only [lookupB, Option.getD_none]
  rw [foldl_addReading]
  simp [zeroBucket]

/-! ## Claims about the estimator -/

/-- C4: for every pair `(co_g, co2_g_per_km)`, `check_thresholds` raises the
alert iff `co2_g_per_km > 180` or `co_g > 20`; the reason is the `", "`-joined
list of fired messages in check order (CO2 before CO), and `none` when neither
rule fires. -/
theorem C4_check_thresholds (co_g co2_g_per_km : ℚ) :
    ((check_thresholds co_g co2_g_per_km).1 = true ↔
      (180 < co2_g_per_km ∨ 20 < co_g)) ∧
    (180 < co2_g_per_km → 20 < co_g →
      (check_thresholds co_g co2_g_per_km).2 =
        some "High CO2 intensity, High CO emission") ∧
    (180 < co2_g_per_km → ¬ 20 < co_g →
      (check_thresholds co_g co2_g_per_km).2 = some "High CO2 intensity") ∧
    (¬ 180 < co2_g_per_km → 20 < co_g →
      (check_thresholds co_g co2_g_per_km).2 = some "High CO emission") ∧
    (¬ 180 < co2_g_per_km → ¬ 20 < co_g →
      (check_thresholds co_g co2_g_per_km).2 = none) := by
  by_cases h1 : 180 < co2_g_per_km <;> by_cases h2 : 20 < co_g <;>
    simp [check_thresholds, h1, h2, interc_two, interc_co2, interc_co]

/-- Witness for C4 at `co_g = 120`, `co2_g_per_km = 231`: both rules fire. -/
theorem C4_check_thresholds_witness :
    (check_thresholds 120 231).2 = some "High CO2 intensity, High CO emission" :=
  (C4_check_thresholds 120 231).2.1 (by norm_num) (by norm_num)

/-- C1, counterexample: on `distance_km=100`, `efficiency_km_per_l=10`,
`fuel_type=petrol`, `avg_speed_kmh=50` (no `fuel_used_l`), the code returns
the numbers the claim states but the reason is
`"High CO2 intensity, High CO emission"` (both rules fire, since
`co_g = 120 > 20`), not exactly `"High CO2 intensity"`. -/
theorem C1_counterexample :
    (estimate false [] 0 ⟨"v1", 100, none, some 10, "petrol", some 50⟩).map
        Prod.fst =
      .ok ⟨120, 23.1, 231, true, some "High CO2 intensity, High CO emission"⟩ ∧
    some "High CO2 intensity, High CO emission" ≠
      some ("High CO2 intensity" : String) := by
  constructor
  · norm_num [estimate, estimate_emissions, emission_factors_petrol, pyRound,
      check_thresholds, interc_two, Except.map]
  · decide

/-- C1, amended: for the input `distance_km=100`, `efficiency_km_per_l=10`,
`fuel_type=petrol`, `avg_speed_kmh=50` (`fuel_used_l` absent), `Estimate`
returns `co2_kg=23.1`, `co2_g_per_km=231.0`, `co_g=120.0`, `alert=true`, and
`reason = "High CO2 intensity, High CO emission"` — whatever the store and
whether or not the insert fails. -/
theorem C1_estimate_example (insertFails : Bool) (store : List Reading) (now : ℤ) :
    (estimate insertFails store now
        ⟨"v1", 100, none, some 10, "petrol", some 50⟩).map Prod.fst =
      .ok ⟨120, 23.1, 231, true, some "High CO2 intensity, High CO emission"⟩ := by
  norm_num [estimate, estimate_emissions, emission_factors_petrol, pyRound,
    check_thresholds, interc_two, Except.map]

/-- C8: for `distance_km=0`, `fuel_used_l=5`, `fuel_type=petrol`, the
estimator returns `co2_kg = 11.55`, `co2_g_per_km = 0` (the division by the
distance is guarded) and `co_g = 0`, for every choice of `avg_speed_kmh`. -/
theorem C8_zero_distance (avg_speed_kmh : Option ℚ) :
    estimate_emissions 0 "petrol" (some 5) none avg_speed_kmh =
      .ok ⟨0, 11.55, 0⟩ := by
  cases avg_speed_kmh with
  | none =>
    norm_num [estimate_emissions, emission_factors_petrol, pyRound]
  | some s =>
    simp only [estimate_emissions, emission_factors_petrol]
    norm_num [mul_zero, pyRound_zero, pyRound]

/-- C7: when `fuel_used_l` is provided, the estimator's result does not depend
on `efficiency_km_per_l`: two runs differing only in that field coincide
(stated, as the claim does, for nonnegative distance and a valid fuel type). -/
theorem C7_efficiency_not_consulted (distance_km : ℚ) (fuel_type : String)
    (fuel_used : ℚ) (eff₁ eff₂ avg_speed_kmh : Option ℚ)
    (hd : 0 ≤ distance_km)
    (hft : fuel_type = "petrol" ∨ fuel_type = "diesel") :
    estimate_emissions distance_km fuel_type (some fuel_used) eff₁ avg_speed_kmh =
      estimate_emissions distance_km fuel_type (some fuel_used) eff₂ avg_speed_kmh := rfl

/-- Witness for C7 at a concrete input: `efficiency_km_per_l = some 3` and
`= none` give the same result. -/
theorem C7_efficiency_not_consulted_witness :
    estimate_emissions 1 "petrol" (some 2) (some 3) none =
      estimate_emissions 1 "petrol" (some 2) none none :=
  C7_efficiency_not_consulted 1 "petrol" 2 (some 3) none none (by norm_num)
    (Or.inl rfl)

/-- C10: a request that explicitly provides `fuel_used_l = 0` succeeds even
with `efficiency_km_per_l` absent (the missing-fuel branch fires only on
`None`, not on `0`), and the resulting `co2_kg` is `0`. -/
theorem C10_zero_fuel (distance_km : ℚ) (fuel_type : String)
    (avg_speed_kmh : Option ℚ) (hd : 0 ≤ distance_km)
    (hft : fuel_type = "petrol" ∨ fuel_type = "diesel") :
    ∃ m, estimate_emissions distance_km fuel_type (some 0) none avg_speed_kmh =
      .ok m ∧ m.co2_kg = 0 := by
  have hd' : ¬ distance_km < 0 := not_lt.2 hd
  cases hE : estimate_emissions distance_km fuel_type (some 0) none avg_speed_kmh with
  | error e =>
    exfalso
    rcases hft with h | h <;> subst h <;>
      simp [estimate_emissions, emission_factors_petrol, emission_factors_diesel,
        if_neg hd'] at hE
  | ok m =>
    refine ⟨m, rfl, ?_⟩
    rcases hft with h | h <;> subst h <;>
      simp only [estimate_emissions, emission_factors_petrol,
        emission_factors_diesel, if_neg hd', Except.ok.injEq] at hE <;>
      rw [← hE] <;> norm_num [pyRound_zero]

/-- Witness for C10 at `distance_km = 3`, petrol, no average speed. -/
theorem C10_zero_fuel_witness :
    ∃ m, estimate_emissions 3 "petrol" (some 0) none none = .ok m ∧
      m.co2_kg = 0 :=
  C10_zero_fuel 3 "petrol" none (by norm_num) (Or.inl rfl)

/-- C2, counterexample: the claim says an explicitly provided
`avg_speed_kmh = 0` is used as the speed, giving
`co_g_per_km = max(0.2, 1.2 + 0.02·|0 − 50|) = 2.2` and hence `co_g = 220`
over 100 km — but the source computes `speed = avg_speed_kmh or 40.0`, so `0`
is falsy and the fallback `40` is used: the code returns `co_g = 140`. -/
theorem C2_counterexample :
    estimate_emissions 100 "petrol" (some 10) none (some 0) =
      .ok ⟨140, 23.1, 231⟩ ∧
    (140 : ℚ) ≠ pyRound 2 (max 0.2 ((6:ℚ)/5 + 0.02 * |(0:ℚ) - 50|) * 100) := by
  constructor
  · norm_num [estimate_emissions, emission_factors_petrol, pyRound]
  · norm_num [pyRound]

/-- C2, amended: the CO computation uses `speed = avg_speed_kmh` when it is
provided and nonzero, so `co_g = round(max(0.2, co_base + 0.02·|s − 50|) ·
distance, 2)` in that case; when `avg_speed_kmh` is absent — or provided but
equal to `0`, which Python's `or` treats like an absent value — the fallback
speed `40.0` is used, giving
`co_g = round(max(0.2, co_base + 0.02·|40 − 50|) · distance, 2)`; moreover a
provided `0` yields exactly the same result as an absent `avg_speed_kmh`. -/
theorem C2_speed_model (distance_km : ℚ) (fuel_type : String)
    (fuel_used_l efficiency_km_per_l : Option ℚ) (avg_speed_kmh : Option ℚ)
    (m : Metrics) (fac : Factors)
    (hfac : emission_factors fuel_type = .ok fac)
    (hok : estimate_emissions distance_km fuel_type fuel_used_l
      efficiency_km_per_l avg_speed_kmh = .ok m) :
    (∀ s, avg_speed_kmh = some s → s ≠ 0 →
      m.co_g = pyRound 2
        (max 0.2 (fac.co_base_g_per_km + 0.02 * |s - 50|) * distance_km)) ∧
    ((avg_speed_kmh = none ∨ avg_speed_kmh = some 0) →
      m.co_g = pyRound 2
        (max 0.2 (fac.co_base_g_per_km + 0.02 * |(40 : ℚ) - 50|) *
          distance_km)) ∧
    (avg_speed_kmh = some 0 →
      estimate_emissions distance_km fuel_type fuel_used_l
        efficiency_km_per_l avg_speed_kmh =
      estimate_emissions distance_km fuel_type fuel_used_l
        efficiency_km_per_l none) := by
  refine ⟨?_, ?_, ?_⟩
  · intro s hs hsne
    subst hs
    by_cases hd : distance_km < 0
    · simp [estimate_emissions, hd] at hok
    · rcases fuel_used_l with _ | f
      · rcases efficiency_km_per_l with _ | e
        · simp [estimate_emissions, hd, hfac] at hok
        · by_cases he : e ≠ 0 ∧ 0 < e
          · simp only [estimate_emissions, if_neg hd, hfac, if_pos he,
              Except.ok.injEq] at hok
            rw [← hok]
            norm_num [if_neg hsne]
          · simp [estimate_emissions, hd, hfac, he] at hok
      · simp only [estimate_emissions, if_neg hd, hfac, Except.ok.injEq] at hok
        rw [← hok]
        norm_num [if_neg hsne]
  · rintro (h | h) <;> subst h <;>
    · by_cases hd : distance_km < 0
      · simp [estimate_emissions, hd] at hok
      · rcases fuel_used_l with _ | f
        · rcases efficiency_km_per_l with _ | e
          · simp [estimate_emissions, hd, hfac] at hok
          · by_cases he : e ≠ 0 ∧ 0 < e
            · simp only [estimate_emissions, if_neg hd, hfac, if_pos he,
                Except.ok.injEq] at hok
              rw [← hok]
              norm_num
            · simp [estimate_emissions, hd, hfac, he] at hok
        · simp only [estimate_emissions, if_neg hd, hfac, Except.ok.injEq] at hok
          rw [← hok]
          norm_num
  · intro h
    subst h
    simp [estimate_emissions]

/-- Witness for C2 at `distance_km = 100`, petrol, `fuel_used_l = 10`,
`avg_speed_kmh` absent: the returned `co_g = 140` matches the formula at the
fallback speed `40`. -/
theorem C2_speed_model_witness :
    (⟨140, 23.1, 231⟩ : Metrics).co_g =
      pyRound 2 (max 0.2 ((6:ℚ)/5 + 0.02 * |(40:ℚ) - 50|) * 100) :=
  (C2_speed_model 100 "petrol" (some 10) none none ⟨140, 23.1, 231⟩
    ⟨231/100, 6/5⟩ emission_factors_petrol
    (by norm_num [estimate_emissions, emission_factors_petrol, pyRound])).2.1
    (Or.inl rfl)

/-- C3, counterexample: when both `fuel_used_l` and `efficiency_km_per_l` are
absent, `Estimate` does fail with a 400, but its detail string is
`"Provide fuel_used_l or efficiency_km_per_l > 0"`, not the
`"provide fuel_used_l or efficiency_km_per_l"` stated by the claim. -/
theorem C3_counterexample :
    estimate false [] 0 ⟨"v1", 1, none, none, "petrol", none⟩ =
      .error ⟨400, "Provide fuel_used_l or efficiency_km_per_l > 0"⟩ ∧
    ("Provide fuel_used_l or efficiency_km_per_l > 0" ≠
      "provide fuel_used_l or efficiency_km_per_l") := by
  constructor
  · norm_num [estimate, estimate_emissions, emission_factors_petrol]
  · decide

/-- C3, amended: over the validated request domain, `Estimate` fails iff
`distance_km < 0`, or the fuel type is invalid, or `fuel_used_l` is absent
with no positive `efficiency_km_per_l` (the first two being impossible for a
validated request); every failure carries the detail
`"Provide fuel_used_l or efficiency_km_per_l > 0"`, and every success returns
exactly the computed metrics with the threshold alert and reason. -/
theorem C3_estimate_failure_cases (r : EstimateRequest) (h : validRequest r)
    (insertFails : Bool) (store : List Reading) (now : ℤ) :
    ((∃ e, estimate insertFails store now r = .error e) ↔
      (r.distance_km < 0 ∨ (r.fuel_type ≠ "petrol" ∧ r.fuel_type ≠ "diesel") ∨
        (r.fuel_used_l = none ∧
          ¬ ∃ ef, r.efficiency_km_per_l = some ef ∧ 0 < ef))) ∧
    (∀ e, estimate insertFails store now r = .error e →
      e = ⟨400, "Provide fuel_used_l or efficiency_km_per_l > 0"⟩) ∧
    (∀ resp st, estimate insertFails store now r = .ok (resp, st) →
      ∃ m, estimate_emissions r.distance_km r.fuel_type r.fuel_used_l
          r.efficiency_km_per_l r.avg_speed_kmh = .ok m ∧
        resp = ⟨m.co_g, m.co2_kg, m.co2_g_per_km,
          (check_thresholds m.co_g m.co2_g_per_km).1,
          (check_thresholds m.co_g m.co2_g_per_km).2⟩) := by
  obtain ⟨hd, hfu0, heff, hft, hsp⟩ := h
  have hd' : ¬ r.distance_km < 0 := not_lt.2 hd
  obtain ⟨fac, hfac⟩ : ∃ fac, emission_factors r.fuel_type = .ok fac := by
    rcases hft with hft | hft <;> rw [hft]
    · exact ⟨_, emission_factors_petrol⟩
    · exact ⟨_, emission_factors_diesel⟩
  have hRHS : (r.distance_km < 0 ∨
      (r.fuel_type ≠ "petrol" ∧ r.fuel_type ≠ "diesel") ∨
      (r.fuel_used_l = none ∧
        ¬ ∃ ef, r.efficiency_km_per_l = some ef ∧ 0 < ef)) ↔
      (r.fuel_used_l = none ∧ r.efficiency_km_per_l = none) := by
    constructor
    · rintro (hc | hc | ⟨h1, h2⟩)
      · exact absurd hc hd'
      · rcases hft with hft | hft <;> simp [hft] at hc
      · refine ⟨h1, ?_⟩
        rcases heqq : r.efficiency_km_per_l with _ | e
        · rfl
        · exact absurd ⟨e, heqq, heff e (by simp [heqq])⟩ h2
    · rintro ⟨h1, h2⟩
      exact Or.inr (Or.inr ⟨h1, by simp [h2]⟩)
  rw [hRHS]
  rcases hfuC : r.fuel_used_l with _ | f
  · rcases heqC : r.efficiency_km_per_l with _ | e
    · have hE : estimate_emissions r.distance_km r.fuel_type r.fuel_used_l
          r.efficiency_km_per_l r.avg_speed_kmh =
          .error ⟨400, "Provide fuel_used_l or efficiency_km_per_l > 0"⟩ := by
        simp [estimate_emissions, hd', hfac, hfuC, heqC]
      refine ⟨?_, ?_, ?_⟩
      · exact ⟨fun _ => ⟨rfl, rfl⟩,
          fun _ => ⟨⟨400, "Provide fuel_used_l or efficiency_km_per_l > 0"⟩,
            by simp [estimate, hE]⟩⟩
      · intro e he
        simp [estimate, hE] at he
        exact he.symm
      · intro resp st hok
        simp [estimate, hE] at hok
    · have he : 0 < e := heff e (by simp [heqC])
      cases hE : estimate_emissions r.distance_km r.fuel_type r.fuel_used_l
          r.efficiency_km_per_l r.avg_speed_kmh with
      | error err =>
        exfalso
        simp [estimate_emissions, hd', hfac, hfuC, heqC, ne_of_gt he, he] at hE
      | ok m =>
        rw [hfuC, heqC] at hE
        refine ⟨?_, ?_, ?_⟩
        · constructor
          · rintro ⟨e', he'⟩
            simp [estimate, hfuC, heqC, hE] at he'
          · rintro ⟨_, hcon⟩
            cases hcon
        · intro e' he'
          simp [estimate, hfuC, heqC, hE] at he'
        · intro resp st hok
          refine ⟨m, hE, ?_⟩
          simp [estimate, hfuC, heqC, hE] at hok
          exact hok.1.symm
  · cases hE : estimate_emissions r.distance_km r.fuel_type r.fuel_used_l
        r.efficiency_km_per_l r.avg_speed_kmh with
    | error err =>
      exfalso
      simp [estimate_emissions, hd', hfac, hfuC] at hE
    | ok m =>
      rw [hfuC] at hE
      refine ⟨?_, ?_, ?_⟩
      · constructor
        · rintro ⟨e', he'⟩
          simp [estimate, hfuC, hE] at he'
        · rintro ⟨hcon, _⟩
          cases hcon
      · intro e' he'
        simp [estimate, hfuC, hE] at he'
      · intro resp st hok
        refine ⟨m, hE, ?_⟩
        simp [estimate, hfuC, hE] at hok
        exact hok.1.symm

/-- Witness for C3: the request with neither `fuel_used_l` nor
`efficiency_km_per_l` is rejected with the source's detail string. -/
theorem C3_estimate_failure_cases_witness :
    estimate false [] 0 ⟨"v1", 1, none, none, "petrol", none⟩ =
      .error ⟨400, "Provide fuel_used_l or efficiency_km_per_l > 0"⟩ := by
  have h := C3_estimate_failure_cases ⟨"v1", 1, none, none, "petrol", none⟩
    ⟨by norm_num, by simp, by simp, Or.inl rfl, by simp⟩ false [] 0
  obtain ⟨e, he⟩ := h.1.mpr (Or.inr (Or.inr ⟨rfl, by simp⟩))
  rw [he, h.2.1 e he]

/-! ## Claims about the weekly aggregation -/

/-- C5: for every store contents and fixed now, the weekly report's `by_day`
has exactly 7 entries; entry `i` is keyed by `dateOf (now − 7 days) + i`
(so the keys are the 7 consecutive UTC dates starting at the date of
`now − 7 days`, in chronological order) and aggregates exactly the queried
readings of that date; a day without readings is emitted zero-filled; and
every queried reading — also one whose date is outside the 7 enumerated
days — is counted by the summary. -/
theorem C5_weekly_by_day (queryFails : Bool) (store : List Reading) (now : ℤ)
    (v : Option String) :
    (weekly_analysis queryFails store now v).by_day.length = 7 ∧
    (∀ i : ℕ, i < 7 →
      (weekly_analysis queryFails store now v).by_day[i]? =
        some (dayBucketSpec (queryReadings queryFails store now v)
          (dateOf (now - 7 * 86400) + i))) ∧
    (∀ i : ℕ, i < 7 →
      ((queryReadings queryFails store now v).filter fun r =>
        decide (dateOf r.created_at = dateOf (now - 7 * 86400) + i)) = [] →
      (weekly_analysis queryFails store now v).by_day[i]? =
        some ⟨dateOf (now - 7 * 86400) + i, 0, 0, 0, 0⟩) ∧
    (weekly_analysis queryFails store now v).summary.total_trips =
      (queryReadings queryFails store now v).length := by
  have hby : (weekly_analysis queryFails store now v).by_day =
      (List.range 7).map fun (i : ℕ) =>
        emitDay (buildByDay (queryReadings queryFails store now v))
          (dateOf ((now - 7 * 86400) + (i : ℤ) * 86400)) := by
    simp [weekly_analysis, List.map_map]
  have hentry : ∀ i : ℕ, i < 7 →
      (weekly_analysis queryFails store now v).by_day[i]? =
        some (dayBucketSpec (queryReadings queryFails store now v)
          (dateOf (now - 7 * 86400) + i)) := by
    intro i hi
    rw [hby, List.getElem?_map, List.getElem?_range hi]
    simp only [Option.map_some']
    rw [emitDay_buildByDay, dateOf_add_days]
  refine ⟨?_, hentry, ?_, ?_⟩
  · rw [hby]
    simp
  · intro i hi hempty
    rw [hentry i hi]
    unfold dayBucketSpec
    rw [hempty]
    simp [pyRound_zero]
  · simp [weekly_analysis]

/-- Witness for C5: one reading at the start of the window lands in the first
bucket, with its rounded sums. -/
theorem C5_weekly_by_day_witness :
    (weekly_analysis false [⟨"v", 0, 1, 2, true⟩] 604800 none).by_day[0]? =
      some ⟨0, 1, 1, 2, 1⟩ := by
  have h := (C5_weekly_by_day false [⟨"v", 0, 1, 2, true⟩] 604800 none).2.1 0
    (by norm_num)
  rw [h]
  norm_num [dayBucketSpec, queryReadings, matchesVehicle, dateOf, Int.zero_fdiv,
    pyRound]

/-- C9: the weekly summary counts the queried readings, sums their `co_g`
(rounded to 2 decimals) and `co2_kg` (rounded to 3), averages them over the
trip count when it is nonzero (0 otherwise), and counts the readings whose
`alert` flag is set. -/
theorem C9_weekly_summary (queryFails : Bool) (store : List Reading) (now : ℤ)
    (v : Option String) :
    (weekly_analysis queryFails store now v).summary.total_trips =
      (queryReadings queryFails store now v).length ∧
    (weekly_analysis queryFails store now v).summary.total_co_g =
      pyRound 2 (((queryReadings queryFails store now v).map (·.co_g)).sum) ∧
    (weekly_analysis queryFails store now v).summary.total_co2_kg =
      pyRound 3 (((queryReadings queryFails store now v).map (·.co2_kg)).sum) ∧
    ((queryReadings queryFails store now v).length ≠ 0 →
      (weekly_analysis queryFails store now v).summary.avg_co_g =
        pyRound 2 (((queryReadings queryFails store now v).map (·.co_g)).sum /
          ((queryReadings queryFails store now v).length : ℚ)) ∧
      (weekly_analysis queryFails store now v).summary.avg_co2_kg =
        pyRound 3 (((queryReadings queryFails store now v).map (·.co2_kg)).sum /
          ((queryReadings queryFails store now v).length : ℚ))) ∧
    ((queryReadings queryFails store now v).length = 0 →
      (weekly_analysis queryFails store now v).summary.avg_co_g = 0 ∧
      (weekly_analysis queryFails store now v).summary.avg_co2_kg = 0) ∧
    (weekly_analysis queryFails store now v).summary.alerts =
      (queryReadings queryFails store now v).countP (·.alert) := by
  by_cases h : (queryReadings queryFails store now v).length = 0 <;>
    simp [weekly_analysis, h]

/-- Witness for C9: with one queried reading with `co_g = 1`, the average is
`round(1/1, 2) = 1`. -/
theorem C9_weekly_summary_witness :
    (weekly_analysis false [⟨"v", 0, 1, 2, true⟩] 604800 none).summary.avg_co_g =
      1 := by
  have h := ((C9_weekly_summary false [⟨"v", 0, 1, 2, true⟩] 604800 none).2.2.2.1
    (by norm_num [queryReadings, matchesVehicle, List.filter])).1
  rw [h]
  norm_num [queryReadings, matchesVehicle, List.filter, pyRound]

/-- C6: storage unavailability is never surfaced. A failing insert does not
change `Estimate`'s response (and leaves the store unchanged), and a failing
range query makes `WeeklyAnalysis` return the report of an empty result set:
an all-zero summary and 7 zero-filled day buckets. -/
theorem C6_storage_swallowed :
    (∀ (store : List Reading) (now : ℤ) (r : EstimateRequest),
      (estimate true store now r).map Prod.fst =
        (estimate false store now r).map Prod.fst) ∧
    (∀ (store : List Reading) (now : ℤ) (r : EstimateRequest) resp st,
      estimate false store now r = .ok (resp, st) →
      estimate true store now r = .ok (resp, store)) ∧
    (∀ (store : List Reading) (now : ℤ) (v : Option String),
      weekly_analysis true store now v = weekly_analysis false [] now v ∧
      (weekly_analysis true store now v).summary = ⟨0, 0, 0, 0, 0, 0⟩ ∧
      (weekly_analysis true store now v).by_day =
        (List.range 7).map fun (i : ℕ) =>
          ⟨dateOf (now - 7 * 86400) + (i : ℤ), 0, 0, 0, 0⟩) := by
  refine ⟨?_, ?_, ?_⟩
  · intro store now r
    cases hE : estimate_emissions r.distance_km r.fuel_type r.fuel_used_l
        r.efficiency_km_per_l r.avg_speed_kmh <;>
      simp [estimate, hE, Except.map]
  · intro store now r resp st hok
    cases hE : estimate_emissions r.distance_km r.fuel_type r.fuel_used_l
        r.efficiency_km_per_l r.avg_speed_kmh with
    | error e => simp [estimate, hE] at hok
    | ok m =>
      simp [estimate, hE] at hok ⊢
      exact hok.1
  · intro store now v
    refine ⟨?_, ?_, ?_⟩
    · simp [weekly_analysis, queryReadings]
    · simp [weekly_analysis, queryReadings, pyRound_zero]
    · simp only [weekly_analysis, queryReadings, if_pos, buildByDay,
        List.foldl_nil, emitDay, lookupB, Option.getD_none, List.map_map]
      simp [pyRound_zero]
      intro i hi
      rw [dateOf_add_days]
      simp [emitDay, lookupB, zeroBucket, pyRound_zero]

/-- Witness for C6: a failed insert returns the same computed response with
the store untouched. -/
theorem C6_storage_swallowed_witness :
    estimate true [] 0 ⟨"v1", 100, some 10, none, "petrol", some 50⟩ =
      .ok (⟨120, 23.1, 231, true, some "High CO2 intensity, High CO emission"⟩,
        []) :=
  C6_storage_swallowed.2.1 [] 0 ⟨"v1", 100, some 10, none, "petrol", some 50⟩
    ⟨120, 23.1, 231, true, some "High CO2 intensity, High CO emission"⟩
    [⟨"v1", 0, 120, 23.1, true⟩]
    (by norm_num [estimate, estimate_emissions, emission_factors_petrol,
      pyRound, check_thresholds, interc_two])

end Ecodrive
